import Mathlib

/-!
Verification of the `extinction` library (interstellar dust extinction
functions, `extinction.pyx`) against its natural-language specification.

The numeric model is exact rational arithmetic (`ℚ`): every double-precision
formula of the source is translated literally, with decimal literals read as
exact rationals.  The single non-rational operation of the source, the power
`x**1.61` in the infrared branch, is abstracted as an explicit function
parameter `rpow : ℚ → ℚ → ℚ` (base, exponent); every theorem below holds for
an arbitrary `rpow`, so no claim depends on its value.
-/

/- ----------------------------------------------------------------------
Cardelli, Clayton and Mathis (1989)
---------------------------------------------------------------------- -/

/-- `ccm89ab_ir_invum`: ccm89 a, b parameters for 0.3 < x < 1.1 (infrared).
`rpow x 1.61` stands for the expression `x**1.61` of the source. -/
def ccm89ab_ir_invum (rpow : ℚ → ℚ → ℚ) (x : ℚ) : ℚ × ℚ :=
  let y := rpow x 1.61
  (0.574 * y, -0.527 * y)

/-- `ccm89ab_opt_invum`: ccm89 a, b parameters for 1.1 < x < 3.3 (optical). -/
def ccm89ab_opt_invum (x : ℚ) : ℚ × ℚ :=
  let y := x - 1.82
  (((((((0.329990*y - 0.77530)*y + 0.01979)*y + 0.72085)*y - 0.02427)*y
      - 0.50447)*y + 0.17699)*y + 1.0,
   ((((((-2.09002*y + 5.30260)*y - 0.62251)*y - 5.38434)*y + 1.07233)*y
      + 2.28305)*y + 1.41338)*y)

/-- `ccm89ab_uv_invum`: ccm89 a, b parameters for 3.3 < x < 8.0 (ultraviolet).
The extra correction is added under the guard of the source, `x > 5.9`. -/
def ccm89ab_uv_invum (x : ℚ) : ℚ × ℚ :=
  let a := 1.752 - 0.316*x - (0.104 / ((x - 4.67)*(x - 4.67) + 0.341))
  let b := -3.090 + 1.825*x + (1.206 / ((x - 4.62)*(x - 4.62) + 0.263))
  if 5.9 < x then
    let y := x - 5.9
    (a + (-0.04473*(y*y) - 0.009779*(y*y*y)),
     b + (0.2130*(y*y) + 0.1207*(y*y*y)))
  else
    (a, b)

/-- The ccm89 ultraviolet a, b values without the `x > 5.9` correction
(the source formula with the guarded addition removed); used to state what
"no correction is added" means. -/
def ccm89ab_uv_base (x : ℚ) : ℚ × ℚ :=
  (1.752 - 0.316*x - (0.104 / ((x - 4.67)*(x - 4.67) + 0.341)),
   -3.090 + 1.825*x + (1.206 / ((x - 4.62)*(x - 4.62) + 0.263)))

/-- `ccm89ab_fuv_invum`: ccm89 a, b parameters for 8 < x < 11 (far-UV). -/
def ccm89ab_fuv_invum (x : ℚ) : ℚ × ℚ :=
  let y := x - 8
  (-0.070*(y*y*y) + 0.137*(y*y) - 0.628*y - 1.073,
   0.374*(y*y*y) - 0.420*(y*y) + 4.257*y + 13.670)

/-- `ccm89ab_invum`: branch selector for ccm89 (thresholds 1.1, 3.3, 8). -/
def ccm89ab_invum (rpow : ℚ → ℚ → ℚ) (x : ℚ) : ℚ × ℚ :=
  if x < 1.1 then ccm89ab_ir_invum rpow x
  else if x < 3.3 then ccm89ab_opt_invum x
  else if x < 8 then ccm89ab_uv_invum x
  else ccm89ab_fuv_invum x

/-- Per-sample ccm89 value `a_v * (a + b / r_v)` (loop body of
`ccm89_invum` / `ccm89_aa`). -/
def ccm89sample (rpow : ℚ → ℚ → ℚ) (a_v r_v x : ℚ) : ℚ :=
  a_v * ((ccm89ab_invum rpow x).1 + (ccm89ab_invum rpow x).2 / r_v)

/-- `ccm89_invum(x, a_v, r_v)`: ccm89 extinction for an array of inverse
microns. -/
def ccm89_invum (rpow : ℚ → ℚ → ℚ) (x : List ℚ) (a_v r_v : ℚ) : List ℚ :=
  x.map (ccm89sample rpow a_v r_v)

/-- `ccm89_aa(wave, a_v, r_v)`: ccm89 extinction for an array of Angstrom
wavelengths; each sample is evaluated at wavenumber `1e4 / wave[i]`. -/
def ccm89_aa (rpow : ℚ → ℚ → ℚ) (wave : List ℚ) (a_v r_v : ℚ) : List ℚ :=
  wave.map (fun w => ccm89sample rpow a_v r_v (1e4 / w))

/- ----------------------------------------------------------------------
ODonnell (1994)
---------------------------------------------------------------------- -/

/-- `od94ab_opt_invum`: od94 a, b parameters for 1.1 < x < 3.3 (optical). -/
def od94ab_opt_invum (x : ℚ) : ℚ × ℚ :=
  let y := x - 1.82
  ((((((((-0.505*y + 1.647)*y - 0.827)*y - 1.718)*y + 1.137)*y +
       0.701)*y - 0.609)*y + 0.104)*y + 1.0,
   (((((((3.347*y - 10.805)*y + 5.491)*y + 11.102)*y - 7.985)*y -
       3.989)*y + 2.908)*y + 1.952)*y)

/-- `od94ab_invum`: branch selector for od94 (reuses the ccm89 infrared,
ultraviolet and far-UV branches). -/
def od94ab_invum (rpow : ℚ → ℚ → ℚ) (x : ℚ) : ℚ × ℚ :=
  if x < 1.1 then ccm89ab_ir_invum rpow x
  else if x < 3.3 then od94ab_opt_invum x
  else if x < 8 then ccm89ab_uv_invum x
  else ccm89ab_fuv_invum x

/-- Per-sample od94 value `a_v * (a + b / r_v)`. -/
def od94sample (rpow : ℚ → ℚ → ℚ) (a_v r_v x : ℚ) : ℚ :=
  a_v * ((od94ab_invum rpow x).1 + (od94ab_invum rpow x).2 / r_v)

/-- `od94_invum(x, a_v, r_v)`. -/
def od94_invum (rpow : ℚ → ℚ → ℚ) (x : List ℚ) (a_v r_v : ℚ) : List ℚ :=
  x.map (od94sample rpow a_v r_v)

/-- `od94_aa(wave, a_v, r_v)`. -/
def od94_aa (rpow : ℚ → ℚ → ℚ) (wave : List ℚ) (a_v r_v : ℚ) : List ℚ :=
  wave.map (fun w => od94sample rpow a_v r_v (1e4 / w))

/- ----------------------------------------------------------------------
Gordon, Clayton, Clayton and Calzetti (2009)
---------------------------------------------------------------------- -/

/-- `gcc09ab_uv_invum`: gcc09 a, b parameters for x > 3.3 (ultraviolet),
with its own correction constants under the guard `x > 5.9`. -/
def gcc09ab_uv_invum (x : ℚ) : ℚ × ℚ :=
  let a := 1.896 - 0.372*x - 0.0108 / ((x - 4.57)*(x - 4.57) + 0.0422)
  let b := -3.503 + 2.057*x + 0.718 / ((x - 4.59)*(x - 4.59) + 0.0530*3.1)
  if 5.9 < x then
    let y := x - 5.9
    (a + (-0.110 * (y*y) - 0.0099 * (y*(y*y))),
     b + (0.537 * (y*y) + 0.0530 * (y*(y*y))))
  else
    (a, b)

/-- The gcc09 ultraviolet a, b values without the `x > 5.9` correction. -/
def gcc09ab_uv_base (x : ℚ) : ℚ × ℚ :=
  (1.896 - 0.372*x - 0.0108 / ((x - 4.57)*(x - 4.57) + 0.0422),
   -3.503 + 2.057*x + 0.718 / ((x - 4.59)*(x - 4.59) + 0.0530*3.1))

/-- `gcc09ab_invum`: branch selector for gcc09 (ccm89 infrared, od94 optical,
gcc09 ultraviolet for every x ≥ 3.3 — no separate far-UV branch). -/
def gcc09ab_invum (rpow : ℚ → ℚ → ℚ) (x : ℚ) : ℚ × ℚ :=
  if x < 1.1 then ccm89ab_ir_invum rpow x
  else if x < 3.3 then od94ab_opt_invum x
  else gcc09ab_uv_invum x

/-- Per-sample gcc09 value `a_v * (a + b / r_v)`. -/
def gcc09sample (rpow : ℚ → ℚ → ℚ) (a_v r_v x : ℚ) : ℚ :=
  a_v * ((gcc09ab_invum rpow x).1 + (gcc09ab_invum rpow x).2 / r_v)

/-- `gcc09_aa(wave, a_v, r_v)`. -/
def gcc09_aa (rpow : ℚ → ℚ → ℚ) (wave : List ℚ) (a_v r_v : ℚ) : List ℚ :=
  wave.map (fun w => gcc09sample rpow a_v r_v (1e4 / w))

/-- Modelled from the spec: the source file defines only `gcc09_aa`; the
interface section of the spec promises a `gcc09_invum(wavenumbers, a_v, r_v)`
form as well ("wavenumber in inverse microns", the Angstrom form "converts
via x = 10⁴/wave then delegates to the invum form").  It is the evident
inverse-micron form of `gcc09_aa`. -/
def gcc09_invum (rpow : ℚ → ℚ → ℚ) (x : List ℚ) (a_v r_v : ℚ) : List ℚ :=
  x.map (gcc09sample rpow a_v r_v)

/- ----------------------------------------------------------------------
Fitzpatrick (1999): constants
---------------------------------------------------------------------- -/

def F99_X0 : ℚ := 4.596
def F99_GAMMA : ℚ := 0.99
def F99_C3 : ℚ := 3.23
def F99_C4 : ℚ := 0.41
def F99_C5 : ℚ := 5.9
def F99_X02 : ℚ := F99_X0 * F99_X0
def F99_GAMMA2 : ℚ := F99_GAMMA * F99_GAMMA

/-- The guard of the correction term inside `_f99uv`: the source tests
`x >= F99_C5`. -/
def f99uvCorrCond (x : ℚ) : Bool := F99_C5 ≤ x

/-- `_f99uv(wave, a_v, r_v)`: Fitzpatrick (1999) analytic function for
wavelengths < 2700 Angstroms. -/
def _f99uv (wave a_v r_v : ℚ) : ℚ :=
  let c2 := -0.824 + 4.717 / r_v
  let c1 := 2.030 - 3.007 * c2
  let x := 1e4 / wave
  let x2 := x * x
  let y := x2 - F99_X02
  let d := x2 / (y * y + x2 * F99_GAMMA2)
  let k := c1 + c2 * x + F99_C3 * d
  let k2 :=
    if f99uvCorrCond x then
      let y := x - F99_C5
      let y2 := y * y
      k + F99_C4 * (0.5392 * y2 + 0.05644 * (y2 * y))
    else k
  a_v * (1 + k2 / r_v)

/-- The `_f99uv` value with the guarded correction term removed (the source
formula minus the `x >= F99_C5` addition); used to state what "no correction
is added" means for the F99 analytic ultraviolet function. -/
def f99uvNoCorr (wave a_v r_v : ℚ) : ℚ :=
  let c2 := -0.824 + 4.717 / r_v
  let c1 := 2.030 - 3.007 * c2
  let x := 1e4 / wave
  let x2 := x * x
  let y := x2 - F99_X02
  let d := x2 / (y * y + x2 * F99_GAMMA2)
  a_v * (1 + (c1 + c2 * x + F99_C3 * d) / r_v)

/-- The fixed F99 knot wavenumbers `1e4 / [inf, 26500, 12200, 6000, 5470,
4670, 4110, 2700, 2600]` (the first entry is `1e4 / ∞ = 0`). -/
def f99xknots : List ℚ :=
  [0, 1e4/26500, 1e4/12200, 1e4/6000, 1e4/5470,
   1e4/4670, 1e4/4110, 1e4/2700, 1e4/2600]

/-- `_f99kknots(xknots, r_v)`: the nine F99 spline knot k-values.  Entries
7 and 8 (two iterations of the `for i in range(7, 9)` loop of the source, unrolled) apply the
ultraviolet rational formula at `xknots[7]` and `xknots[8]`. -/
def _f99kknots (xknots : List ℚ) (r_v : ℚ) : List ℚ :=
  let c2 := -0.824 + 4.717 / r_v
  let c1 := 2.030 - 3.007 * c2
  let rv2 := r_v * r_v
  let x7 := xknots.getD 7 0
  let x72 := x7 * x7
  let y7 := x72 - F99_X02
  let x8 := xknots.getD 8 0
  let x82 := x8 * x8
  let y8 := x82 - F99_X02
  [-r_v,
   0.26469 * r_v/3.1 - r_v,
   0.82925 * r_v/3.1 - r_v,
   -0.422809 + 1.00270*r_v + 2.13572e-04*rv2 - r_v,
   -5.13540e-02 + 1.00216 * r_v - 7.35778e-05*rv2 - r_v,
   0.700127 + 1.00184*r_v - 3.32598e-05*rv2 - r_v,
   1.19456 + 1.01707*r_v - 5.46959e-03*rv2 +
     7.97809e-04 * (rv2 * r_v) - 4.45636e-05 * (rv2*rv2) - r_v,
   c1 + c2*x7 + F99_C3 * (x72 / (y7 * y7 + x72 * F99_GAMMA2)),
   c1 + c2*x8 + F99_C3 * (x82 / (y8 * y8 + x82 * F99_GAMMA2))]

/- ----------------------------------------------------------------------
Cubic spline (scipy `splmake` / `spleval`).

Modelled from the spec: the source delegates spline construction and
evaluation to `scipy.interpolate.splmake` / `spleval`, which are not part
of this repository.  The CubicSplineInterpolant contract of the spec asks for a
standard interpolating cubic spline ("not-a-knot (or equivalent) natural
cubic spline behavior: piecewise cubic, C² continuous at interior knots,
passing exactly through each (x_i, k_i)"), so a natural cubic spline is
modelled here: second derivatives M_i at the knots solve the standard
tridiagonal system with M_0 = M_{n-1} = 0, and each segment is the cubic
determined by its endpoint values and second derivatives.
---------------------------------------------------------------------- -/

/-- Modelled from the spec: an interpolating cubic spline, stored as knot
x-coordinates, knot values, and knot second derivatives. -/
structure Spline where
  xs : List ℚ
  ys : List ℚ
  ms : List ℚ

/-- Forward sweep of the Thomas tridiagonal algorithm on rows
`(sub, diag, super, rhs)`; returns the eliminated `(superDivPivot,
rhsDivPivot)` pairs in reverse row order. -/
def thomasFwd (rows : List (ℚ × ℚ × ℚ × ℚ)) : List (ℚ × ℚ) :=
  rows.foldl
    (fun acc r =>
      match acc with
      | [] => [(r.2.2.1 / r.2.1, r.2.2.2 / r.2.1)]
      | (cp, dp) :: _ =>
          (r.2.2.1 / (r.2.1 - r.1 * cp),
           (r.2.2.2 - r.1 * dp) / (r.2.1 - r.1 * cp)) :: acc)
    []

/-- Back substitution of the Thomas algorithm, consuming the reversed
forward-sweep output and producing the solution in forward row order. -/
def thomasBack (rev : List (ℚ × ℚ)) : List ℚ :=
  rev.foldl
    (fun ms cd =>
      match ms with
      | [] => [cd.2]
      | m :: _ => (cd.2 - cd.1 * m) :: ms)
    []

/-- Modelled from the spec: natural-spline knot second derivatives.  With
`h_i = x_{i+1} - x_i` and slopes `s_i = (y_{i+1} - y_i) / h_i`, the interior
rows `h_{i-1}·M_{i-1} + 2(h_{i-1}+h_i)·M_i + h_i·M_{i+1} = 6(s_i - s_{i-1})`
are solved by the Thomas algorithm, and `M_0 = M_{n-1} = 0`. -/
def splineM (xs ys : List ℚ) : List ℚ :=
  let h := (xs.drop 1).zipWith (fun a b => a - b) xs
  let s := (((ys.drop 1).zipWith (fun a b => a - b) ys).zipWith
    (fun a b => a / b) h)
  let rows := (h.zipWith (fun a b => (a, b)) (h.drop 1)).zipWith
      (fun hp sp => (hp.1, 2 * (hp.1 + hp.2), hp.2, 6 * (sp.2 - sp.1)))
      (s.zipWith (fun a b => (a, b)) (s.drop 1))
  0 :: (thomasBack (thomasFwd rows) ++ [0])

/-- Modelled from the spec: `splmake(xknots, kknots, order=3)` builds the
natural interpolating cubic spline through the knots. -/
def splmake (xs ys : List ℚ) : Spline :=
  ⟨xs, ys, splineM xs ys⟩

/-- Index of the spline segment used for query point `t`: the number of
knots after the first that lie at or below `t`, clamped so that queries
beyond the outermost knots extrapolate with the boundary segment. -/
def segIdx (xs : List ℚ) (t : ℚ) : ℕ :=
  min ((xs.drop 1).countP (fun u => decide (u ≤ t))) (xs.length - 2)

/-- Modelled from the spec: `spleval(spline, t)` evaluates the cubic of the
segment containing `t`, in the standard second-derivative form
`A·y_j + B·y_{j+1} + ((A³−A)·M_j + (B³−B)·M_{j+1})·h²/6` with
`A = (x_{j+1} − t)/h`, `B = (t − x_j)/h`. -/
def spleval (s : Spline) (t : ℚ) : ℚ :=
  let j := segIdx s.xs t
  let xj := s.xs.getD j 0
  let xj1 := s.xs.getD (j+1) 0
  let h := xj1 - xj
  let A := (xj1 - t) / h
  let B := (t - xj) / h
  A * s.ys.getD j 0 + B * s.ys.getD (j+1) 0 +
    ((A^3 - A) * s.ms.getD j 0 + (B^3 - B) * s.ms.getD (j+1) 0) * (h^2 / 6)

/- ----------------------------------------------------------------------
Fitzpatrick (1999): composite law
---------------------------------------------------------------------- -/

/-- The spline built by `F99Extinction.__init__` for a given `r_v`. -/
def F99spline (r_v : ℚ) : Spline :=
  splmake f99xknots (_f99kknots f99xknots r_v)

/-- The branch test of `F99Extinction.__call__`: the source tests
`wave > 2700.` to keep the spline value. -/
def f99SplineCond (wave : ℚ) : Bool := 2700 < wave

/-- One sample of `F99Extinction.__call__`: the spline value `k` at
wavenumber `1e4 / wave`, rescaled to `ebv * (k + r_v)` when
`wave > 2700`, and otherwise overwritten with the analytic `_f99uv`. -/
def F99sampleCall (r_v a_v wave : ℚ) : ℚ :=
  let ebv := a_v / r_v
  let k := spleval (F99spline r_v) (1e4 / wave)
  if f99SplineCond wave then ebv * (k + r_v)
  else _f99uv wave a_v r_v

/-- `F99Extinction(r_v).__call__(wave, a_v)` over a wavelength array. -/
def F99call (r_v a_v : ℚ) (wave : List ℚ) : List ℚ :=
  wave.map (F99sampleCall r_v a_v)

/- ----------------------------------------------------------------------
Fitzpatrick and Massa (2007)
---------------------------------------------------------------------- -/

def FM07_X0 : ℚ := 4.592
def FM07_GAMMA : ℚ := 0.922
def FM07_C1 : ℚ := -0.175
def FM07_C2 : ℚ := 0.807
def FM07_C3 : ℚ := 2.991
def FM07_C4 : ℚ := 0.319
def FM07_C5 : ℚ := 6.097
def FM07_X02 : ℚ := FM07_X0 * FM07_X0
def FM07_GAMMA2 : ℚ := FM07_GAMMA * FM07_GAMMA

/-- One sample of `_fm07uv` (loop body): Fitzpatrick and Massa (2007)
analytic ultraviolet value at wavelength `wave`, with R_V fixed at 3.1. -/
def fm07uvSample (a_v wave : ℚ) : ℚ :=
  let x := 1e4 / wave
  let x2 := x * x
  let y := x2 - FM07_X02
  let d := x2 / (y*y + x2 * FM07_GAMMA2)
  let k := FM07_C1 + FM07_C2 * x + FM07_C3 * d
  let k2 := if FM07_C5 < x then k + FM07_C4 * ((x - FM07_C5) * (x - FM07_C5))
            else k
  a_v * (1 + k2 / 3.1)

/-- `_fm07uv(wave, a_v)` over a wavelength array. -/
def _fm07uv (wave : List ℚ) (a_v : ℚ) : List ℚ :=
  wave.map (fm07uvSample a_v)

/- ----------------------------------------------------------------------
Helper lemmas
---------------------------------------------------------------------- -/

/-- Evaluating the F99 spline form at any of the nine knot x-coordinates
returns the stored value of that knot, whatever the knot values and second
derivatives are: the segment cubic is written in endpoint form. -/
lemma spleval_f99xknot (ys ms : List ℚ) (i : Fin 9) :
    spleval ⟨f99xknots, ys, ms⟩ (f99xknots.getD i 0) = ys.getD i 0 := by
  fin_cases i <;>
  · simp only [spleval]
    norm_num [segIdx, f99xknots, List.countP_cons, List.countP_nil]

/-- Specialisation to knot 7, the x-coordinate `1e4 / 2700` of the
analytic/spline boundary. -/
lemma spleval_f99_boundary_knot (ys ms : List ℚ) :
    spleval ⟨f99xknots, ys, ms⟩ (1e4 / 2700) = ys.getD 7 0 := by
  simpa using spleval_f99xknot ys ms 7

/-- `_f99uv` splits into the uncorrected value plus a guarded correction
(the division by `r_v` distributes over the added term). -/
lemma f99uv_eq_noCorr_add (wave a_v r_v : ℚ) :
    _f99uv wave a_v r_v =
      f99uvNoCorr wave a_v r_v +
        (if f99uvCorrCond (1e4 / wave) then
          a_v * (F99_C4 * (0.5392 * ((1e4/wave - F99_C5)*(1e4/wave - F99_C5)) +
            0.05644 * (((1e4/wave - F99_C5)*(1e4/wave - F99_C5)) *
              (1e4/wave - F99_C5))) / r_v)
        else 0) := by
  simp only [_f99uv, f99uvNoCorr]
  split_ifs with hc
  · ring
  · ring

/-- Mapping two pointwise-equal functions over a list gives equal lists. -/
lemma map_eq_map_of_eq {f g : ℚ → ℚ} (h : ∀ w, f w = g w) (l : List ℚ) :
    l.map f = l.map g := by
  induction l with
  | nil => rfl
  | cons a t ih => simp [h a, ih]

/-- Scaling `a_v` scales a ccm89 sample. -/
lemma ccm89sample_smul (rpow : ℚ → ℚ → ℚ) (a_v r_v c x : ℚ) :
    ccm89sample rpow (c * a_v) r_v x = c * ccm89sample rpow a_v r_v x := by
  simp only [ccm89sample]; ring

/-- Scaling `a_v` scales an od94 sample. -/
lemma od94sample_smul (rpow : ℚ → ℚ → ℚ) (a_v r_v c x : ℚ) :
    od94sample rpow (c * a_v) r_v x = c * od94sample rpow a_v r_v x := by
  simp only [od94sample]; ring

/-- Scaling `a_v` scales a gcc09 sample. -/
lemma gcc09sample_smul (rpow : ℚ → ℚ → ℚ) (a_v r_v c x : ℚ) :
    gcc09sample rpow (c * a_v) r_v x = c * gcc09sample rpow a_v r_v x := by
  simp only [gcc09sample]; ring

/-- Scaling `a_v` scales an F99 sample, on both branches. -/
lemma F99sampleCall_smul (r_v a_v c w : ℚ) :
    F99sampleCall r_v (c * a_v) w = c * F99sampleCall r_v a_v w := by
  simp only [F99sampleCall, _f99uv]
  split_ifs <;> ring

/-- Scaling `a_v` scales an fm07 ultraviolet sample. -/
lemma fm07uvSample_smul (a_v c w : ℚ) :
    fm07uvSample (c * a_v) w = c * fm07uvSample a_v w := by
  simp only [fm07uvSample]
  split_ifs <;> ring

/- ----------------------------------------------------------------------
Claims
---------------------------------------------------------------------- -/

/-- C1 (counterexample): the branch test of `F99Extinction.__call__` is
`wave > 2700.` (`f99SplineCond`), which is false at a wavelength of exactly
2700 Angstroms, so that sample is handled by the analytic-UV branch
(`_f99uv`), not by the spline branch as the claim states. -/
theorem C1_counterexample :
    f99SplineCond 2700 = false ∧ F99sampleCall 3.1 1 2700 = _f99uv 2700 1 3.1 := by
  constructor
  · simp [f99SplineCond]
  · simp only [F99sampleCall]
    rw [if_neg]
    simp [f99SplineCond]

/-- C1 (amended): a sample whose wavelength is exactly 2700 Angstroms is
handled by the analytic-UV branch: the branch test `wave > 2700` is strict,
so 2700 fails it and the output is `_f99uv(2700, a_v, r_v)` for every
`r_v` and `a_v`. -/
theorem C1_f99_2700_analytic_branch :
    f99SplineCond 2700 = false ∧
    ∀ r_v a_v : ℚ, F99sampleCall r_v a_v 2700 = _f99uv 2700 a_v r_v := by
  constructor
  · simp [f99SplineCond]
  · intro r_v a_v
    simp only [F99sampleCall]
    rw [if_neg]
    simp [f99SplineCond]

set_option maxHeartbeats 1000000 in
/-- C2: the F99 output is continuous across the 2700 Angstrom boundary.
For every `r_v ≠ 0` and every `a_v`, the spline-branch formula
`(a_v/r_v)·(k + r_v)` evaluated at exactly 2700 Angstroms coincides exactly
with the analytic UV value `_f99uv(2700, a_v, r_v)`, because spline knot 7
(x = 1e4/2700) is computed with the same rational UV formula; in
particular, for the concrete instance `r_v = 3.1`, `a_v = 1`, the values
0.1 Angstrom above and below the boundary (spline branch and analytic
branch respectively) differ by less than 1e-3 magnitudes. -/
theorem C2_f99_continuous_across_2700 (r_v a_v : ℚ) (h : r_v ≠ 0) :
    (a_v / r_v) * (spleval (F99spline r_v) (1e4 / 2700) + r_v)
      = _f99uv 2700 a_v r_v ∧
    |F99sampleCall 3.1 1 (27001/10) - F99sampleCall 3.1 1 (26999/10)| < 1e-3 := by
  constructor
  · have h7 := spleval_f99_boundary_knot (_f99kknots f99xknots r_v)
      (splineM f99xknots (_f99kknots f99xknots r_v))
    simp only [F99spline, splmake, h7]
    simp only [_f99uv, f99uvCorrCond, _f99kknots, f99xknots]
    norm_num [F99_X02, F99_GAMMA2, F99_X0, F99_GAMMA, F99_C3, F99_C5]
    field_simp
    ring
  · norm_num [F99sampleCall, f99SplineCond, F99spline, splmake, splineM, thomasFwd,
      thomasBack, spleval, segIdx, f99xknots, _f99kknots, _f99uv, f99uvCorrCond,
      F99_X02, F99_GAMMA2, F99_X0, F99_GAMMA, F99_C3, F99_C4, F99_C5,
      List.countP_cons, List.countP_nil, List.foldl_cons, List.foldl_nil,
      List.zipWith_cons_cons, abs_lt]

/-- C2 (witness): the boundary coincidence at the concrete instance
`r_v = 3.1`, `a_v = 1`. -/
theorem C2_witness :
    (3.1 : ℚ) ≠ 0 ∧
    ((1 : ℚ) / 3.1) * (spleval (F99spline 3.1) (1e4 / 2700) + 3.1)
      = _f99uv 2700 1 3.1 :=
  ⟨by norm_num, (C2_f99_continuous_across_2700 3.1 1 (by norm_num)).1⟩

/-- C3: for every `r_v`, evaluating the constructed cubic spline at any of
its 9 knot x-coordinates reproduces the k-value of that knot — exactly, in
the rational model (hence well within the 1e-10 tolerance of the claim). -/
theorem C3_spline_interpolates_knots (r_v : ℚ) (i : Fin 9) :
    spleval (F99spline r_v) (f99xknots.getD i 0)
      = (_f99kknots f99xknots r_v).getD i 0 := by
  simpa only [F99spline, splmake] using
    spleval_f99xknot (_f99kknots f99xknots r_v)
      (splineM f99xknots (_f99kknots f99xknots r_v)) i

/-- C4 (counterexample): the F99 analytic UV correction guard is
`x >= F99_C5` in the source (`f99uvCorrCond`), so at a wavenumber of
exactly 5.9 the guarded branch does fire — the condition is not the strict
`>` the claim asserts for the F99 analytic UV function. -/
theorem C4_counterexample : f99uvCorrCond 5.9 = true := by
  norm_num [f99uvCorrCond, F99_C5]

/-- C4 (amended): the ccm89 and gcc09 ultraviolet correction guards are
strict (`x > 5.9`), so at x = 5.9 exactly the output equals the
uncorrected formula and for any x > 5.9 it differs from it.  The F99
analytic UV guard is `x ≥ 5.9` instead, so it fires at exactly 5.9, but
the correction term vanishes there, so the value still equals the
uncorrected formula; for any x > 5.9 (and nonzero `a_v`, `r_v`) a nonzero
correction is added. -/
theorem C4_uv_correction_guards (r_v a_v x : ℚ) :
    ccm89ab_uv_invum 5.9 = ccm89ab_uv_base 5.9 ∧
    gcc09ab_uv_invum 5.9 = gcc09ab_uv_base 5.9 ∧
    f99uvCorrCond 5.9 = true ∧
    _f99uv (1e4 / 5.9) a_v r_v = f99uvNoCorr (1e4 / 5.9) a_v r_v ∧
    (5.9 < x →
      ccm89ab_uv_invum x ≠ ccm89ab_uv_base x ∧
      gcc09ab_uv_invum x ≠ gcc09ab_uv_base x ∧
      (a_v ≠ 0 → r_v ≠ 0 →
        _f99uv (1e4 / x) a_v r_v ≠ f99uvNoCorr (1e4 / x) a_v r_v)) := by
  refine ⟨?_, ?_, ?_, ?_, ?_⟩
  · norm_num [ccm89ab_uv_invum, ccm89ab_uv_base]
  · norm_num [gcc09ab_uv_invum, gcc09ab_uv_base]
  · norm_num [f99uvCorrCond, F99_C5]
  · rw [f99uv_eq_noCorr_add]
    norm_num [f99uvCorrCond, F99_C5]
  · intro h
    have hy : (0:ℚ) < x - 5.9 := by linarith
    refine ⟨?_, ?_, ?_⟩
    · intro heq
      rw [ccm89ab_uv_invum, ccm89ab_uv_base] at heq
      rw [if_pos h] at heq
      have h2 := congrArg Prod.snd heq
      simp only [Prod.snd] at h2
      nlinarith [mul_pos (mul_pos hy hy) hy, mul_pos hy hy]
    · intro heq
      rw [gcc09ab_uv_invum, gcc09ab_uv_base] at heq
      rw [if_pos h] at heq
      have h2 := congrArg Prod.snd heq
      simp only [Prod.snd] at h2
      nlinarith [mul_pos (mul_pos hy hy) hy, mul_pos hy hy]
    · intro ha hr heq
      have hx : x ≠ 0 := by linarith
      rw [f99uv_eq_noCorr_add] at heq
      rw [show (1e4:ℚ) / (1e4 / x) = x by field_simp] at heq
      rw [if_pos (by simp [f99uvCorrCond, F99_C5]; linarith)] at heq
      have hc : (0:ℚ) < F99_C4 * (0.5392 * ((x - F99_C5)*(x - F99_C5)) +
          0.05644 * (((x - F99_C5)*(x - F99_C5)) * (x - F99_C5))) := by
        simp only [F99_C4, F99_C5]
        nlinarith [mul_pos (mul_pos hy hy) hy, mul_pos hy hy]
      have hne : a_v * (F99_C4 * (0.5392 * ((x - F99_C5)*(x - F99_C5)) +
          0.05644 * (((x - F99_C5)*(x - F99_C5)) * (x - F99_C5))) / r_v) ≠ 0 :=
        mul_ne_zero ha (div_ne_zero (ne_of_gt hc) hr)
      simp only [F99_C5] at heq hne
      ring_nf at heq hne
      exact hne (by linarith)

/-- C4 (witness): at `x = 5.900001`, `a_v = 1`, `r_v = 3.1`, the F99
analytic value differs from the uncorrected formula. -/
theorem C4_witness :
    (5.9 : ℚ) < 5.900001 ∧ (1 : ℚ) ≠ 0 ∧ (3.1 : ℚ) ≠ 0 ∧
    _f99uv (1e4 / 5.900001) 1 3.1 ≠ f99uvNoCorr (1e4 / 5.900001) 1 3.1 :=
  ⟨by norm_num, by norm_num, by norm_num,
    ((C4_uv_correction_guards 3.1 1 5.900001).2.2.2.2 (by norm_num)).2.2
      (by norm_num) (by norm_num)⟩

/-- C5: branch selection uses strict `<` at the upper thresholds 1.1, 3.3
and 8 inverse microns, so a wavenumber exactly equal to a threshold falls
into the higher branch, for ccm89, od94 and gcc09 alike. -/
theorem C5_boundaries_select_higher_branch (rpow : ℚ → ℚ → ℚ) :
    ccm89ab_invum rpow 1.1 = ccm89ab_opt_invum 1.1 ∧
    ccm89ab_invum rpow 3.3 = ccm89ab_uv_invum 3.3 ∧
    ccm89ab_invum rpow 8 = ccm89ab_fuv_invum 8 ∧
    od94ab_invum rpow 1.1 = od94ab_opt_invum 1.1 ∧
    od94ab_invum rpow 3.3 = ccm89ab_uv_invum 3.3 ∧
    od94ab_invum rpow 8 = ccm89ab_fuv_invum 8 ∧
    gcc09ab_invum rpow 1.1 = od94ab_opt_invum 1.1 ∧
    gcc09ab_invum rpow 3.3 = gcc09ab_uv_invum 3.3 := by
  refine ⟨?_, ?_, ?_, ?_, ?_, ?_, ?_, ?_⟩ <;>
    norm_num [ccm89ab_invum, od94ab_invum, gcc09ab_invum]

/-- C6: od94 equals ccm89 exactly outside the optical branch
(x < 1.1 or x ≥ 3.3), and gcc09 equals od94 exactly on the optical branch
(1.1 ≤ x < 3.3), for every nonzero `r_v` and every `a_v`. -/
theorem C6_law_agreement (rpow : ℚ → ℚ → ℚ) (x a_v r_v : ℚ) (hrv : r_v ≠ 0) :
    ((x < 1.1 ∨ 3.3 ≤ x) →
      od94sample rpow a_v r_v x = ccm89sample rpow a_v r_v x) ∧
    (1.1 ≤ x → x < 3.3 →
      gcc09sample rpow a_v r_v x = od94sample rpow a_v r_v x) := by
  constructor
  · rintro (h | h) <;>
    · simp only [od94sample, ccm89sample, od94ab_invum, ccm89ab_invum]
      split_ifs <;> first | rfl | linarith
  · intro h1 h2
    simp only [gcc09sample, od94sample, gcc09ab_invum, od94ab_invum]
    split_ifs <;> first | rfl | linarith

/-- C6 (witness): agreement at x = 4 (ultraviolet) and at x = 2
(optical), with `a_v = 1`, `r_v = 3.1`. -/
theorem C6_witness :
    ((3.1 : ℚ) ≠ 0 ∧ ((4:ℚ) < 1.1 ∨ (3.3:ℚ) ≤ 4) ∧
      od94sample (fun _ _ => 0) 1 3.1 4 = ccm89sample (fun _ _ => 0) 1 3.1 4) ∧
    ((1.1:ℚ) ≤ 2 ∧ (2:ℚ) < 3.3 ∧
      gcc09sample (fun _ _ => 0) 1 3.1 2 = od94sample (fun _ _ => 0) 1 3.1 2) :=
  ⟨⟨by norm_num, Or.inr (by norm_num),
      (C6_law_agreement (fun _ _ => 0) 4 1 3.1 (by norm_num)).1
        (Or.inr (by norm_num))⟩,
   ⟨by norm_num, by norm_num,
      (C6_law_agreement (fun _ _ => 0) 2 1 3.1 (by norm_num)).2
        (by norm_num) (by norm_num)⟩⟩

/-- C7: for each law, the Angstrom form equals the inverse-micron form
evaluated at `1e4 / wave`, element-wise and exactly, for every wavelength
array with positive entries, every `a_v` and every nonzero `r_v`. -/
theorem C7_aa_delegates_to_invum (rpow : ℚ → ℚ → ℚ) (wave : List ℚ)
    (a_v r_v : ℚ) (hrv : r_v ≠ 0) (hw : ∀ w ∈ wave, 0 < w) :
    ccm89_aa rpow wave a_v r_v
      = ccm89_invum rpow (wave.map (fun w => 1e4 / w)) a_v r_v ∧
    od94_aa rpow wave a_v r_v
      = od94_invum rpow (wave.map (fun w => 1e4 / w)) a_v r_v ∧
    gcc09_aa rpow wave a_v r_v
      = gcc09_invum rpow (wave.map (fun w => 1e4 / w)) a_v r_v := by
  refine ⟨?_, ?_, ?_⟩ <;>
    simp [ccm89_aa, ccm89_invum, od94_aa, od94_invum, gcc09_aa, gcc09_invum,
      List.map_map, Function.comp]

/-- C7 (witness): the round trip at `wave = [5500]`, `a_v = 1`,
`r_v = 3.1`. -/
theorem C7_witness :
    (3.1 : ℚ) ≠ 0 ∧ (∀ w ∈ [(5500:ℚ)], 0 < w) ∧
    ccm89_aa (fun _ _ => 0) [5500] 1 3.1
      = ccm89_invum (fun _ _ => 0) ([(5500:ℚ)].map (fun w => 1e4 / w)) 1 3.1 :=
  ⟨by norm_num, by norm_num,
    (C7_aa_delegates_to_invum (fun _ _ => 0) [5500] 1 3.1 (by norm_num)
      (by norm_num)).1⟩

/-- C8: with `a_v = 0` and any nonzero `r_v`, every law returns an
all-zero array on every positive wavelength array. -/
theorem C8_zero_av_gives_zeros (rpow : ℚ → ℚ → ℚ) (wave : List ℚ)
    (r_v : ℚ) (hrv : r_v ≠ 0) (hw : ∀ w ∈ wave, 0 < w) :
    ccm89_aa rpow wave 0 r_v = List.replicate wave.length 0 ∧
    od94_aa rpow wave 0 r_v = List.replicate wave.length 0 ∧
    gcc09_aa rpow wave 0 r_v = List.replicate wave.length 0 ∧
    F99call r_v 0 wave = List.replicate wave.length 0 := by
  refine ⟨?_, ?_, ?_, ?_⟩ <;>
  · rw [List.eq_replicate_iff]
    refine ⟨by simp [ccm89_aa, od94_aa, gcc09_aa, F99call], ?_⟩
    intro b hb
    simp only [ccm89_aa, od94_aa, gcc09_aa, F99call, List.mem_map] at hb
    obtain ⟨w, hw2, rfl⟩ := hb
    simp only [ccm89sample, od94sample, gcc09sample, F99sampleCall, _f99uv]
    try split_ifs
    all_goals simp

/-- C8 (witness): the zero output at `wave = [5500]`, `r_v = 3.1`. -/
theorem C8_witness :
    (3.1 : ℚ) ≠ 0 ∧ (∀ w ∈ [(5500:ℚ)], 0 < w) ∧
    F99call 3.1 0 [5500] = List.replicate (List.length [(5500:ℚ)]) 0 :=
  ⟨by norm_num, by norm_num,
    (C8_zero_av_gives_zeros (fun _ _ => 0) [5500] 3.1 (by norm_num)
      (by norm_num)).2.2.2⟩

/-- C9: ccm89 at the single wavelength 5500 Angstroms with `a_v = 1`,
`r_v = 3.1` yields an extinction value within 0.05 magnitudes of 1. -/
theorem C9_ccm89_vband_normalization (rpow : ℚ → ℚ → ℚ) :
    |(ccm89_aa rpow [5500] 1 3.1).headI - 1| < 0.05 := by
  simp only [ccm89_aa, List.map, List.headI, ccm89sample, ccm89ab_invum]
  norm_num [ccm89ab_opt_invum, abs_lt]

/-- C10: every law is homogeneous in `a_v`: evaluating with `c * a_v`
yields exactly `c` times the result of evaluating with `a_v`, element-wise,
on both F99 branches and for the fm07 ultraviolet helper as well. -/
theorem C10_linear_in_av (rpow : ℚ → ℚ → ℚ) (wave : List ℚ)
    (a_v r_v c : ℚ) (hrv : r_v ≠ 0) :
    ccm89_aa rpow wave (c * a_v) r_v
      = (ccm89_aa rpow wave a_v r_v).map (fun t => c * t) ∧
    od94_aa rpow wave (c * a_v) r_v
      = (od94_aa rpow wave a_v r_v).map (fun t => c * t) ∧
    gcc09_aa rpow wave (c * a_v) r_v
      = (gcc09_aa rpow wave a_v r_v).map (fun t => c * t) ∧
    ccm89_invum rpow wave (c * a_v) r_v
      = (ccm89_invum rpow wave a_v r_v).map (fun t => c * t) ∧
    F99call r_v (c * a_v) wave
      = (F99call r_v a_v wave).map (fun t => c * t) ∧
    _fm07uv wave (c * a_v) = (_fm07uv wave a_v).map (fun t => c * t) := by
  refine ⟨?_, ?_, ?_, ?_, ?_, ?_⟩
  · simp only [ccm89_aa, List.map_map]
    exact map_eq_map_of_eq
      (fun w => by simp only [Function.comp]; exact ccm89sample_smul rpow a_v r_v c _) wave
  · simp only [od94_aa, List.map_map]
    exact map_eq_map_of_eq
      (fun w => by simp only [Function.comp]; exact od94sample_smul rpow a_v r_v c _) wave
  · simp only [gcc09_aa, List.map_map]
    exact map_eq_map_of_eq
      (fun w => by simp only [Function.comp]; exact gcc09sample_smul rpow a_v r_v c _) wave
  · simp only [ccm89_invum, List.map_map]
    exact map_eq_map_of_eq
      (fun w => by simp only [Function.comp]; exact ccm89sample_smul rpow a_v r_v c _) wave
  · simp only [F99call, List.map_map]
    exact map_eq_map_of_eq
      (fun w => by simp only [Function.comp]; exact F99sampleCall_smul r_v a_v c _) wave
  · simp only [_fm07uv, List.map_map]
    exact map_eq_map_of_eq
      (fun w => by simp only [Function.comp]; exact fm07uvSample_smul a_v c _) wave

/-- C10 (witness): homogeneity at `wave = [5500]`, `c = 2`, `a_v = 1`,
`r_v = 3.1` for the F99 composite law. -/
theorem C10_witness :
    (3.1 : ℚ) ≠ 0 ∧
    F99call 3.1 (2 * 1) [5500] = (F99call 3.1 1 [5500]).map (fun t => 2 * t) :=
  ⟨by norm_num,
    (C10_linear_in_av (fun _ _ => 0) [5500] 1 3.1 2 (by norm_num)).2.2.2.2.1⟩
